import Mathlib

/-!
Verification of the page-fragment cache allocator (mm/page_frag_cache.c and
include/linux/page_frag_cache.h, with the revisions of both files that the
repository carries).

The embedding is shallow: machine words are `Nat` with explicit 32-bit
truncation (`u32`, `add32`, `sub32`, `not32`) wherever the C code computes in
`unsigned int`, and 64-bit masks written out as numerals.  The block
allocator and the blocks' atomic reference counters are external to the
core; they are modelled by an oracle `Nat → Nat → Option page_info` giving
the allocator's response for each (gfp, order) request, and a `mem_world`
carrying every block's reference count, the list of blocks released back to
the allocator, and the log of allocation requests.  Reference counts are
`Int`, matching the signed atomic counter.

The configuration modelled is the common one fixed by the sources' tests and
documentation: 64-bit words, `PAGE_SIZE = 4096`, so
`PAGE_FRAG_CACHE_MAX_SIZE = 32768`, `PAGE_FRAG_CACHE_MAX_ORDER = 3`, and the
`PAGE_SIZE < PAGE_FRAG_CACHE_MAX_SIZE` compile-time branch is the active
one.
-/

/-- `PAGE_SIZE` for the modelled configuration (`PAGE_SHIFT = 12`). -/
def PAGE_SIZE : Nat := 4096

/-- `PAGE_MASK = ~(PAGE_SIZE - 1)` as a 64-bit machine word. -/
def PAGE_MASK : Nat := 18446744073709547520

/-- `PAGE_FRAG_CACHE_MAX_SIZE`: the preferred block size (32 KiB). -/
def PAGE_FRAG_CACHE_MAX_SIZE : Nat := 32768

/-- `PAGE_FRAG_CACHE_MAX_ORDER = get_order(PAGE_FRAG_CACHE_MAX_SIZE)`. -/
def PAGE_FRAG_CACHE_MAX_ORDER : Nat := 3

/-- `PAGE_FRAG_CACHE_ORDER_MASK = GENMASK(7, 0)`: a full byte for the order. -/
def PAGE_FRAG_CACHE_ORDER_MASK : Nat := 255

/-- `PAGE_FRAG_CACHE_PFMEMALLOC_SHIFT`: the pfmemalloc flag sits just above
the order byte. -/
def PAGE_FRAG_CACHE_PFMEMALLOC_SHIFT : Nat := 8

/-- `PAGE_FRAG_CACHE_PFMEMALLOC_BIT = BIT(PAGE_FRAG_CACHE_PFMEMALLOC_SHIFT)`. -/
def PAGE_FRAG_CACHE_PFMEMALLOC_BIT : Nat := 256

/-- Truncation to a 32-bit value, the C `unsigned int`. -/
def u32 (a : Nat) : Nat := a % 4294967296

/-- 32-bit unsigned addition (wraps as C `unsigned int` addition does). -/
def add32 (a b : Nat) : Nat := (a + b) % 4294967296

/-- 32-bit unsigned subtraction (wraps as C `unsigned int` subtraction does). -/
def sub32 (a b : Nat) : Nat := (a + 4294967296 - b % 4294967296) % 4294967296

/-- 32-bit bitwise complement, the C `~` on an `unsigned int`. -/
def not32 (a : Nat) : Nat := 4294967295 - a % 4294967296

/-- `__ALIGN_KERNEL_MASK(x, mask) = ((x) + (mask)) & ~(mask))` in `unsigned
int` arithmetic. -/
def __ALIGN_KERNEL_MASK (x mask : Nat) : Nat := add32 x mask &&& not32 mask

/-- `page_frag_encode_page` (include/linux/page_frag_cache.h): pack the
block's base virtual address, its order and its pfmemalloc flag into one
machine word.  The block is identified by its base address
(`page_address(page)`). -/
def page_frag_encode_page (base order : Nat) (pfmemalloc : Bool) : Nat :=
  base ||| (order &&& PAGE_FRAG_CACHE_ORDER_MASK) |||
    ((if pfmemalloc then 1 else 0) <<< PAGE_FRAG_CACHE_PFMEMALLOC_SHIFT)

/-- Decoder `order(w) = w & ORDER_MASK`. -/
def page_frag_encoded_page_order (encoded_page : Nat) : Nat :=
  encoded_page &&& PAGE_FRAG_CACHE_ORDER_MASK

/-- Decoder `pfmemalloc(w) = !!(w & PFMEMALLOC_BIT)`. -/
def page_frag_encoded_page_pfmemalloc (encoded_page : Nat) : Bool :=
  decide (encoded_page &&& PAGE_FRAG_CACHE_PFMEMALLOC_BIT ≠ 0)

/-- Decoder `virt(w) = w & PAGE_MASK`. -/
def page_frag_encoded_page_address (encoded_page : Nat) : Nat :=
  encoded_page &&& PAGE_MASK

/-- `page_frag_encoded_page_ptr` (`virt_to_page`): the page containing the
encoded virtual address, identified by the block's base address (the low
bits of the word hold only order and pfmemalloc, all below `PAGE_SIZE`). -/
def page_frag_encoded_page_ptr (encoded_page : Nat) : Nat :=
  encoded_page &&& PAGE_MASK

/-- `page_frag_cache_page_size(w) = PAGE_SIZE << order(w)` as an
`unsigned int`. -/
def page_frag_cache_page_size (encoded_page : Nat) : Nat :=
  u32 (PAGE_SIZE <<< page_frag_encoded_page_order encoded_page)

/-- `struct page_frag_cache` in the `encoded_page`/`offset` representation
of include/linux/page_frag_cache.h.  `encoded_page` is 0 when the cache is
empty; `offset` and `pagecnt_bias` are `unsigned int` fields. -/
structure page_frag_cache where
  encoded_page : Nat
  offset : Nat
  pagecnt_bias : Nat
deriving DecidableEq, Repr

/-- `struct page_frag`: the fragment value handed to the caller. -/
structure page_frag where
  page : Nat
  offset : Nat
  size : Nat
deriving DecidableEq, Repr

/-- `__page_frag_cache_commit` (include/linux/page_frag_cache.h): advance the
cache offset past the committed bytes, fold the alignment padding into the
fragment's reported size, and take one reference out of `pagecnt_bias` when
`referenced`.  The C function updates `nc` and `pfrag` in place; here the
updated pair is returned.  The debug-only `VM_BUG_ON` assertions are the
hypotheses of the theorems below. -/
def __page_frag_cache_commit (nc : page_frag_cache) (pfrag : page_frag)
    (referenced : Bool) (used_sz : Nat) : page_frag_cache × page_frag :=
  let pagecnt_bias := if referenced then sub32 nc.pagecnt_bias 1 else nc.pagecnt_bias
  let committed_size := add32 (sub32 pfrag.offset nc.offset) used_sz
  ({ nc with offset := add32 pfrag.offset used_sz, pagecnt_bias := pagecnt_bias },
   { pfrag with size := committed_size })

/-- `page_frag_commit`: commit taking a reference. -/
def page_frag_commit (nc : page_frag_cache) (pfrag : page_frag)
    (used_sz : Nat) : page_frag_cache × page_frag :=
  __page_frag_cache_commit nc pfrag true used_sz

/-- `page_frag_commit_noref`: commit without taking a reference (for
coalescing with a previously committed fragment). -/
def page_frag_commit_noref (nc : page_frag_cache) (pfrag : page_frag)
    (used_sz : Nat) : page_frag_cache × page_frag :=
  __page_frag_cache_commit nc pfrag false used_sz

/-- `page_frag_alloc_abort` (include/linux/page_frag_cache.h): caller-side
undo of the most recent commit of exactly `fragsz` bytes. -/
def page_frag_alloc_abort (nc : page_frag_cache) (fragsz : Nat) : page_frag_cache :=
  { nc with pagecnt_bias := add32 nc.pagecnt_bias 1, offset := sub32 nc.offset fragsz }

/-- `__page_frag_alloc_refill_probe_align` (include/linux/page_frag_cache.h):
the non-refilling probe.  It only reads the cache — the model is a pure
function of `nc` with no allocator oracle — and on success returns the
tentative fragment together with its virtual address (the C code fills
`pfrag` and returns the address). -/
def __page_frag_alloc_refill_probe_align (nc : page_frag_cache)
    (fragsz align_mask : Nat) : Option (page_frag × Nat) :=
  let encoded_page := nc.encoded_page
  let size := page_frag_cache_page_size encoded_page
  let offset := __ALIGN_KERNEL_MASK nc.offset (not32 align_mask)
  if encoded_page = 0 ∨ add32 offset fragsz > size then
    none
  else
    some ({ page := page_frag_encoded_page_ptr encoded_page,
            offset := offset,
            size := sub32 size offset },
          page_frag_encoded_page_address encoded_page + offset)

/-- A block handed out by the block allocator: its base address and whether
it was drawn from the pfmemalloc emergency reserves. -/
structure page_info where
  base : Nat
  pfmemalloc : Bool
deriving DecidableEq, Repr

/-- State external to one cache: every block's atomic reference count (keyed
by block base address), the blocks released back to the block allocator (in
order), and the log of allocation requests as (gfp flags, order) pairs. -/
structure mem_world where
  ref : Nat → Int
  freed : List Nat
  reqs : List (Nat × Nat)

/-- Pointwise update of a reference-count map. -/
def setref (f : Nat → Int) (base : Nat) (v : Int) : Nat → Int :=
  fun b => if b = base then v else f b

/-- `alloc_pages_node`: ask the block allocator for a block of the given
order.  The request is logged; a freshly delivered block has reference
count 1. -/
def alloc_pages_node (oracle : Nat → Nat → Option page_info) (w : mem_world)
    (gfp order : Nat) : Option page_info × mem_world :=
  match oracle gfp order with
  | some page => (some page, { w with ref := setref w.ref page.base 1,
                                      reqs := w.reqs ++ [(gfp, order)] })
  | none => (none, { w with reqs := w.reqs ++ [(gfp, order)] })

/-- Modelled from the spec: the gfp flag bits (`__GFP_DIRECT_RECLAIM`,
`__GFP_COMP`, `__GFP_NOWARN`, `__GFP_NORETRY`, `__GFP_NOMEMALLOC`) are
declared in headers outside this repository.  They are modelled as distinct
single bits of the 32-bit flag word, which is all the core relies on. -/
def __GFP_DIRECT_RECLAIM : Nat := 64

/-- Modelled from the spec: see `__GFP_DIRECT_RECLAIM`. -/
def __GFP_COMP : Nat := 2

/-- Modelled from the spec: see `__GFP_DIRECT_RECLAIM`. -/
def __GFP_NOWARN : Nat := 4

/-- Modelled from the spec: see `__GFP_DIRECT_RECLAIM`. -/
def __GFP_NORETRY : Nat := 8

/-- Modelled from the spec: see `__GFP_DIRECT_RECLAIM`. -/
def __GFP_NOMEMALLOC : Nat := 16

/-- The flag mutation both refill revisions apply for the high-order
attempt: `(gfp_mask & ~__GFP_DIRECT_RECLAIM) | __GFP_COMP | __GFP_NOWARN |
__GFP_NORETRY | __GFP_NOMEMALLOC`. -/
def gfp_high_order (gfp_mask : Nat) : Nat :=
  (gfp_mask &&& not32 __GFP_DIRECT_RECLAIM) ||| __GFP_COMP ||| __GFP_NOWARN |||
    __GFP_NORETRY ||| __GFP_NOMEMALLOC

/-- `struct page_frag_cache` in the `va`/`size` representation of
include/linux/page_frag_types.h, used by both revisions of
mm/page_frag_cache.c: `va` is the encoded word (base | order |
pfmemalloc << 8; 0 when the cache is empty), `size` the remaining bytes of
the current block (so the current offset is `block size - size`). -/
structure page_frag_cache_t where
  va : Nat
  size : Nat
  pagecnt_bias : Nat
deriving DecidableEq, Repr

/-- `__page_frag_cache_refill` (first revision of mm/page_frag_cache.c):
try a `PAGE_FRAG_CACHE_MAX_ORDER` block with the augmented flags, fall back
to an order-0 block with the caller's original flags, add
`PAGE_FRAG_CACHE_MAX_SIZE` to the fresh block's refcount and install it; on
total failure set `va = 0`, `size = 0` (the other fields are not written).
Returns the obtained block (by base address), the cache and the world. -/
def __page_frag_cache_refill_v1 (oracle : Nat → Nat → Option page_info)
    (nc : page_frag_cache_t) (gfp_mask : Nat) (w : mem_world) :
    Option Nat × page_frag_cache_t × mem_world :=
  let gfp := gfp_mask
  match alloc_pages_node oracle w (gfp_high_order gfp_mask) PAGE_FRAG_CACHE_MAX_ORDER with
  | (some page, w) =>
      (some page.base,
       { va := page.base ||| PAGE_FRAG_CACHE_MAX_ORDER |||
           ((if page.pfmemalloc then 1 else 0) <<< PAGE_FRAG_CACHE_PFMEMALLOC_SHIFT),
         size := PAGE_FRAG_CACHE_MAX_SIZE,
         pagecnt_bias := PAGE_FRAG_CACHE_MAX_SIZE + 1 },
       { w with ref := setref w.ref page.base (w.ref page.base + PAGE_FRAG_CACHE_MAX_SIZE) })
  | (none, w) =>
    match alloc_pages_node oracle w gfp 0 with
    | (some page, w) =>
        (some page.base,
         { va := page.base |||
             ((if page.pfmemalloc then 1 else 0) <<< PAGE_FRAG_CACHE_PFMEMALLOC_SHIFT),
           size := PAGE_SIZE,
           pagecnt_bias := PAGE_FRAG_CACHE_MAX_SIZE + 1 },
         { w with ref := setref w.ref page.base (w.ref page.base + PAGE_FRAG_CACHE_MAX_SIZE) })
    | (none, w) => (none, { nc with va := 0, size := 0 }, w)

/-- `__page_frag_alloc_va_align` (first revision of mm/page_frag_cache.c).
`nc.size` holds the remaining bytes of the current block.  The
`goto alloc_fragment` loop is modelled by recursion on `fuel` (each theorem
below supplies enough fuel for the execution it describes; `fuel = 0`
returns failure with the state untouched).  The `WARN_ON_ONCE` branch
returning NULL for `fragsz > PAGE_SIZE` is the plain conditional. -/
def __page_frag_alloc_va_align_v1 (oracle : Nat → Nat → Option page_info)
    (fuel : Nat) (nc : page_frag_cache_t) (fragsz gfp_mask align_mask : Nat)
    (w : mem_world) : Option Nat × page_frag_cache_t × mem_world :=
  match fuel with
  | 0 => (none, nc, w)
  | fuel + 1 =>
    let size := nc.size &&& align_mask
    let va := nc.va
    let page_order := va &&& PAGE_FRAG_CACHE_ORDER_MASK
    let page_size := u32 (PAGE_SIZE <<< page_order)
    if fragsz > size then
      if va = 0 then
        match __page_frag_cache_refill_v1 oracle nc gfp_mask w with
        | (some _, nc, w) =>
            __page_frag_alloc_va_align_v1 oracle fuel nc fragsz gfp_mask align_mask w
        | (none, nc, w) => (none, nc, w)
      else if fragsz > PAGE_SIZE then
        (none, nc, w)
      else
        let page := va &&& PAGE_MASK
        if w.ref page - (nc.pagecnt_bias : Int) ≠ 0 then
          let w := { w with ref := setref w.ref page (w.ref page - (nc.pagecnt_bias : Int)) }
          match __page_frag_cache_refill_v1 oracle nc gfp_mask w with
          | (some _, nc, w) =>
              __page_frag_alloc_va_align_v1 oracle fuel nc fragsz gfp_mask align_mask w
          | (none, nc, w) => (none, nc, w)
        else
          let w := { w with ref := setref w.ref page 0 }
          if va &&& PAGE_FRAG_CACHE_PFMEMALLOC_BIT ≠ 0 then
            let w := { w with freed := w.freed ++ [page] }
            match __page_frag_cache_refill_v1 oracle nc gfp_mask w with
            | (some _, nc, w) =>
                __page_frag_alloc_va_align_v1 oracle fuel nc fragsz gfp_mask align_mask w
            | (none, nc, w) => (none, nc, w)
          else
            let w := { w with ref := setref w.ref page ((PAGE_FRAG_CACHE_MAX_SIZE : Int) + 1) }
            let nc := { nc with pagecnt_bias := PAGE_FRAG_CACHE_MAX_SIZE + 1 }
            let size := page_size
            (some ((va &&& PAGE_MASK) + (page_size - size)),
             { nc with size := sub32 size fragsz,
                       pagecnt_bias := sub32 nc.pagecnt_bias 1 }, w)
    else
      (some ((va &&& PAGE_MASK) + (page_size - size)),
       { nc with size := sub32 size fragsz,
                 pagecnt_bias := sub32 nc.pagecnt_bias 1 }, w)

/-- `__page_frag_cache_drain` (mm/page_frag_cache.c): post `count`
references to the block's atomic counter; release the block to the
allocator exactly when the counter reaches zero. -/
def __page_frag_cache_drain (page : Nat) (count : Nat) (w : mem_world) : mem_world :=
  let r := w.ref page - (count : Int)
  let w := { w with ref := setref w.ref page r }
  if r = 0 then { w with freed := w.freed ++ [page] } else w

/-- `page_frag_cache_drain` (mm/page_frag_cache.c): no-op on an empty cache;
otherwise drain the held block's bias and zero the whole cache (`memset`). -/
def page_frag_cache_drain (nc : page_frag_cache_t) (w : mem_world) :
    page_frag_cache_t × mem_world :=
  if nc.va = 0 then (nc, w)
  else (⟨0, 0, 0⟩, __page_frag_cache_drain (nc.va &&& PAGE_MASK) nc.pagecnt_bias w)

/-- The `new_page` tail of `__page_frag_cache_refill` (second revision of
mm/page_frag_cache.c): acquire a fresh block, preferring a
`PAGE_FRAG_CACHE_MAX_ORDER` block requested with the augmented flags and
falling back to order 0 with the caller's flags; on total failure the cache
keeps `va = 0`, `size = 0` (`pagecnt_bias` is not written). -/
def __page_frag_cache_refill_v2_new_page (oracle : Nat → Nat → Option page_info)
    (nc : page_frag_cache_t) (gfp : Nat) (w : mem_world) :
    Option Nat × page_frag_cache_t × mem_world :=
  match alloc_pages_node oracle w (gfp_high_order gfp) PAGE_FRAG_CACHE_MAX_ORDER with
  | (some page, w) =>
      (some page.base,
       { va := page.base ||| PAGE_FRAG_CACHE_MAX_ORDER |||
           ((if page.pfmemalloc then 1 else 0) <<< PAGE_FRAG_CACHE_PFMEMALLOC_SHIFT),
         size := PAGE_FRAG_CACHE_MAX_SIZE,
         pagecnt_bias := PAGE_FRAG_CACHE_MAX_SIZE + 1 },
       { w with ref := setref w.ref page.base (w.ref page.base + PAGE_FRAG_CACHE_MAX_SIZE) })
  | (none, w) =>
    match alloc_pages_node oracle w gfp 0 with
    | (some page, w) =>
        (some page.base,
         { va := page.base |||
             ((if page.pfmemalloc then 1 else 0) <<< PAGE_FRAG_CACHE_PFMEMALLOC_SHIFT),
           size := PAGE_SIZE,
           pagecnt_bias := PAGE_FRAG_CACHE_MAX_SIZE + 1 },
         { w with ref := setref w.ref page.base (w.ref page.base + PAGE_FRAG_CACHE_MAX_SIZE) })
    | (none, w) => (none, { nc with va := 0, size := 0 }, w)

/-- `__page_frag_cache_refill` (second revision of mm/page_frag_cache.c):
the reuse-or-drop decision.  If the cache holds a block, collapse the bias
into the block's refcount with one atomic subtract; when the count reached
zero and the block is not pfmemalloc, recycle it in place (set the refcount
back to `PAGE_FRAG_CACHE_MAX_SIZE + 1`, reset the bias and the remaining
size); when it reached zero but the block is pfmemalloc, release the block
first; when it did not reach zero, forget the block; in the last two cases
fall through to `new_page`. -/
def __page_frag_cache_refill_v2 (oracle : Nat → Nat → Option page_info)
    (nc : page_frag_cache_t) (gfp : Nat) (w : mem_world) :
    Option Nat × page_frag_cache_t × mem_world :=
  let va := nc.va
  if va ≠ 0 then
    let page := va &&& PAGE_MASK
    if w.ref page - (nc.pagecnt_bias : Int) ≠ 0 then
      let w := { w with ref := setref w.ref page (w.ref page - (nc.pagecnt_bias : Int)) }
      __page_frag_cache_refill_v2_new_page oracle nc gfp w
    else
      let w := { w with ref := setref w.ref page 0 }
      if va &&& PAGE_FRAG_CACHE_PFMEMALLOC_BIT ≠ 0 then
        let w := { w with freed := w.freed ++ [page] }
        __page_frag_cache_refill_v2_new_page oracle nc gfp w
      else
        (some page,
         { nc with pagecnt_bias := PAGE_FRAG_CACHE_MAX_SIZE + 1,
                   size := page_frag_cache_page_size va },
         { w with ref := setref w.ref page ((PAGE_FRAG_CACHE_MAX_SIZE : Int) + 1) })
  else
    __page_frag_cache_refill_v2_new_page oracle nc gfp w

/-- Claim C5: for a prepared fragment `f` (so `nc.offset ≤ f.offset`, the
fragment lies inside the block, and the cache holds at least one bias
reference) and any `used_sz ≤ f.size`, commit advances the cache offset to
`f.offset + used_sz`, decrements `pagecnt_bias` by exactly one
(`page_frag_commit_noref` leaves it unchanged), and reports as the
fragment's size the true bytes consumed including alignment padding:
`new_offset - previous_offset = (f.offset - old_offset) + used_sz`. -/
theorem commit_advances_offset_and_bias (nc : page_frag_cache) (f : page_frag)
    (used_sz : Nat)
    (hused : used_sz ≤ f.size)
    (hoff : nc.offset ≤ f.offset)
    (hin : f.offset + f.size ≤ page_frag_cache_page_size nc.encoded_page)
    (hbias1 : 1 ≤ nc.pagecnt_bias) (hbias2 : nc.pagecnt_bias < 4294967296) :
    (__page_frag_cache_commit nc f true used_sz).1.offset = f.offset + used_sz ∧
    (__page_frag_cache_commit nc f true used_sz).1.pagecnt_bias = nc.pagecnt_bias - 1 ∧
    (page_frag_commit_noref nc f used_sz).1.pagecnt_bias = nc.pagecnt_bias ∧
    (__page_frag_cache_commit nc f true used_sz).2.size = (f.offset - nc.offset) + used_sz ∧
    (__page_frag_cache_commit nc f true used_sz).1.offset - nc.offset =
      (f.offset - nc.offset) + used_sz := by
  have hp : page_frag_cache_page_size nc.encoded_page < 4294967296 :=
    Nat.mod_lt _ (by norm_num)
  simp [__page_frag_cache_commit, page_frag_commit_noref, add32, sub32] <;> omega

/-- Witness for C5 at a concrete cache and fragment. -/
theorem commit_advances_offset_and_bias_witness :
    (__page_frag_cache_commit ⟨4096, 1, 5⟩ ⟨4096, 4, 10⟩ true 8).1.offset = 12 ∧
    (__page_frag_cache_commit ⟨4096, 1, 5⟩ ⟨4096, 4, 10⟩ true 8).1.pagecnt_bias = 4 := by
  have h := commit_advances_offset_and_bias ⟨4096, 1, 5⟩ ⟨4096, 4, 10⟩ 8
    (by decide) (by decide) (by decide) (by decide) (by decide)
  exact ⟨h.1, h.2.1⟩

/-- Claim C6 counterexample: with cache offset 1 and a fragment prepared at
the aligned offset 8, `commit(f, 8)` then `abort(8)` leaves `offset = 8`,
not the pre-commit offset 1: `abort fragsz` only subtracts `fragsz`, so the
alignment padding paid by the commit is not undone. -/
theorem commit_abort_offset_not_restored :
    (page_frag_alloc_abort (__page_frag_cache_commit ⟨4096, 1, 5⟩ ⟨4096, 8, 16⟩ true 8).1
        8).offset = 8 ∧
    (page_frag_alloc_abort (__page_frag_cache_commit ⟨4096, 1, 5⟩ ⟨4096, 8, 16⟩ true 8).1
        8).offset ≠ (⟨4096, 1, 5⟩ : page_frag_cache).offset := by
  constructor
  · decide
  · decide

/-- Claim C6 (amended): for a cache holding a block, a fragment `f` with
`nc.offset ≤ f.offset` and a committed size `k` with no external reference
taken, `commit(f, k); abort(k)` always restores `pagecnt_bias` exactly and
brings `offset` to `f.offset` (abort performs `offset -= fragsz` and
`pagecnt_bias += 1`); both `offset` and `pagecnt_bias` are restored exactly
to their pre-commit values when `f.offset` equals the pre-commit cache
offset, i.e. when the commit paid no alignment padding. -/
theorem commit_abort_roundtrip (nc : page_frag_cache) (f : page_frag) (k : Nat)
    (hbias1 : 1 ≤ nc.pagecnt_bias) (hbias2 : nc.pagecnt_bias < 4294967296)
    (hoff : nc.offset ≤ f.offset) (hk : f.offset + k < 4294967296) :
    (page_frag_alloc_abort (__page_frag_cache_commit nc f true k).1 k).pagecnt_bias =
      nc.pagecnt_bias ∧
    (page_frag_alloc_abort (__page_frag_cache_commit nc f true k).1 k).offset = f.offset ∧
    (f.offset = nc.offset →
      (page_frag_alloc_abort (__page_frag_cache_commit nc f true k).1 k).offset =
        nc.offset) := by
  simp [__page_frag_cache_commit, page_frag_alloc_abort, add32, sub32] <;> omega

/-- Witness for the amended C6 at a concrete cache and fragment. -/
theorem commit_abort_roundtrip_witness :
    (page_frag_alloc_abort (__page_frag_cache_commit ⟨4096, 16, 9⟩ ⟨4096, 16, 32⟩ true 20).1
        20).pagecnt_bias = 9 ∧
    (page_frag_alloc_abort (__page_frag_cache_commit ⟨4096, 16, 9⟩ ⟨4096, 16, 32⟩ true 20).1
        20).offset = 16 := by
  have h := commit_abort_roundtrip ⟨4096, 16, 9⟩ ⟨4096, 16, 32⟩ 20
    (by decide) (by decide) (by decide) (by decide)
  exact ⟨h.1, h.2.1⟩

/-- `x &&& (2^n - 1)` is `x % 2^n`: the low-bits mask is the remainder. -/
theorem land_two_pow_sub_one (x n : Nat) : x &&& (2 ^ n - 1) = x % 2 ^ n := by
  apply Nat.eq_of_testBit_eq
  intro i
  rw [Nat.testBit_land, Nat.testBit_two_pow_sub_one, Nat.testBit_mod_two_pow,
    Bool.and_comm]

/-- Claim C7 counterexample: with an order-0 block fully used
(`offset = 4096 = block size`), a probe for `4294967295` bytes wraps the
32-bit sum `offset + fragsz` around and returns a fragment, even though the
aligned offset plus the requested size (4096 + 4294967295) does not fit the
4096-byte block; so probe success is not equivalent to the request
fitting. -/
theorem probe_wraps_on_huge_fragsz :
    (__page_frag_alloc_refill_probe_align ⟨4096, 4096, 1⟩ 4294967295 4294967295).isSome
      = true ∧
    __ALIGN_KERNEL_MASK (4096 : Nat) (not32 4294967295) = 4096 ∧
    page_frag_cache_page_size 4096 < 4096 + 4294967295 := by
  refine ⟨by decide, by decide, by decide⟩

/-- Claim C7 (amended): provided the 32-bit sum of the aligned offset and
`fragsz` does not wrap around, the probe returns a fragment iff the cache
holds a block and the aligned current offset plus the requested size fits
within the block's size; on success the fragment sits at the aligned offset
and extends to the end of the block (the maximum available), at the
matching page and virtual address.  The probe is modelled as a pure
function of the cache alone, so it touches neither the cache nor the block
allocator. -/
theorem probe_iff_request_fits (nc : page_frag_cache) (fragsz align_mask : Nat)
    (hnw : __ALIGN_KERNEL_MASK nc.offset (not32 align_mask) + fragsz < 4294967296) :
    ((__page_frag_alloc_refill_probe_align nc fragsz align_mask).isSome = true ↔
      (nc.encoded_page ≠ 0 ∧
       __ALIGN_KERNEL_MASK nc.offset (not32 align_mask) + fragsz ≤
         page_frag_cache_page_size nc.encoded_page)) ∧
    (∀ f va, __page_frag_alloc_refill_probe_align nc fragsz align_mask = some (f, va) →
      f.offset = __ALIGN_KERNEL_MASK nc.offset (not32 align_mask) ∧
      f.size = page_frag_cache_page_size nc.encoded_page - f.offset ∧
      f.page = page_frag_encoded_page_ptr nc.encoded_page ∧
      va = page_frag_encoded_page_address nc.encoded_page + f.offset) := by
  have hadd : add32 (__ALIGN_KERNEL_MASK nc.offset (not32 align_mask)) fragsz =
      __ALIGN_KERNEL_MASK nc.offset (not32 align_mask) + fragsz := by
    unfold add32
    omega
  have hsz : page_frag_cache_page_size nc.encoded_page < 4294967296 :=
    Nat.mod_lt _ (by norm_num)
  by_cases hc : nc.encoded_page = 0 ∨
      add32 (__ALIGN_KERNEL_MASK nc.offset (not32 align_mask)) fragsz >
        page_frag_cache_page_size nc.encoded_page
  · have hnone : __page_frag_alloc_refill_probe_align nc fragsz align_mask = none := by
      simp only [__page_frag_alloc_refill_probe_align]
      rw [if_pos hc]
    rw [hadd] at hc
    refine ⟨?_, ?_⟩
    · rw [hnone]
      simp only [Option.isSome_none, Bool.false_eq_true, false_iff]
      omega
    · intro f va h
      rw [hnone] at h
      exact absurd h (by simp)
  · have hsome : __page_frag_alloc_refill_probe_align nc fragsz align_mask =
        some (⟨page_frag_encoded_page_ptr nc.encoded_page,
               __ALIGN_KERNEL_MASK nc.offset (not32 align_mask),
               sub32 (page_frag_cache_page_size nc.encoded_page)
                 (__ALIGN_KERNEL_MASK nc.offset (not32 align_mask))⟩,
              page_frag_encoded_page_address nc.encoded_page +
                __ALIGN_KERNEL_MASK nc.offset (not32 align_mask)) := by
      simp only [__page_frag_alloc_refill_probe_align]
      rw [if_neg hc]
    have hc2 := hc
    rw [hadd] at hc2
    refine ⟨?_, ?_⟩
    · rw [hsome]
      simp only [Option.isSome_some, true_iff]
      omega
    · intro f va h
      rw [hsome] at h
      have hx := Option.some.inj h
      rw [Prod.ext_iff] at hx
      obtain ⟨hf, hv⟩ := hx
      subst hf
      refine ⟨rfl, ?_, rfl, hv.symm⟩
      show sub32 (page_frag_cache_page_size nc.encoded_page)
        (__ALIGN_KERNEL_MASK nc.offset (not32 align_mask)) =
        page_frag_cache_page_size nc.encoded_page -
          __ALIGN_KERNEL_MASK nc.offset (not32 align_mask)
      unfold sub32
      omega

/-- Witness for the amended C7: a probe for 64 bytes on a half-used order-0
block succeeds with the maximal remaining fragment. -/
theorem probe_iff_request_fits_witness :
    (__page_frag_alloc_refill_probe_align ⟨4096, 2048, 7⟩ 64 4294967295).isSome = true ∧
    (4096 : Nat) ≠ 0 := by
  have h := probe_iff_request_fits ⟨4096, 2048, 7⟩ 64 4294967295 (by decide)
  exact ⟨h.1.2 (by decide), by decide⟩

/-- Bits of a multiple of 4096 below bit 12 are zero. -/
theorem low_bits_of_aligned (base : Nat) (hmod : base % 4096 = 0) :
    ∀ j, j < 12 → base.testBit j = false := by
  intro j hj
  have h1 := Nat.testBit_mod_two_pow base 12 j
  rw [show base % 2 ^ 12 = 0 from by omega, Nat.zero_testBit] at h1
  simpa [hj] using h1.symm

/-- Masking a page-aligned 64-bit base address ored with any sub-page value
by `PAGE_MASK` recovers the base address. -/
theorem lor_small_land_page_mask (base r : Nat)
    (hbase : base < 18446744073709551616)
    (hmod : base % 4096 = 0) (hr : r < 4096) :
    (base ||| r) &&& PAGE_MASK = base := by
  apply Nat.eq_of_testBit_eq
  intro i
  rw [Nat.testBit_land, Nat.testBit_lor,
    show PAGE_MASK = (2 ^ 52 - 1) <<< 12 from by norm_num [PAGE_MASK, Nat.shiftLeft_eq],
    Nat.testBit_shiftLeft, Nat.testBit_two_pow_sub_one]
  by_cases h1 : i < 12
  · have hb := low_bits_of_aligned base hmod i h1
    simp [hb, show ¬ (i ≥ 12) from by omega]
  · by_cases h2 : i < 64
    · have h4 : (4096 : Nat) ≤ 2 ^ i := by
        calc (4096 : Nat) = 2 ^ 12 := by norm_num
          _ ≤ 2 ^ i := Nat.pow_le_pow_right (by norm_num) (by omega)
      have hrb : r.testBit i = false :=
        Nat.testBit_eq_false_of_lt (lt_of_lt_of_le hr h4)
      simp [hrb, show i ≥ 12 from by omega, show i - 12 < 52 from by omega]
    · have h64 : (18446744073709551616 : Nat) ≤ 2 ^ i := by
        calc (18446744073709551616 : Nat) = 2 ^ 64 := by norm_num
          _ ≤ 2 ^ i := Nat.pow_le_pow_right (by norm_num) (by omega)
      have hb : base.testBit i = false :=
        Nat.testBit_eq_false_of_lt (lt_of_lt_of_le hbase h64)
      have h4 : (4096 : Nat) ≤ 2 ^ i := by
        calc (4096 : Nat) = 2 ^ 12 := by norm_num
          _ ≤ 2 ^ i := Nat.pow_le_pow_right (by norm_num) (by omega)
      have hrb : r.testBit i = false :=
        Nat.testBit_eq_false_of_lt (lt_of_lt_of_le hr h4)
      simp [hb, hrb, show ¬ (i - 12 < 52) from by omega]

/-- Masking a page-aligned base address ored with a sub-page value by a
low-bits mask recovers the sub-page value's low bits. -/
theorem lor_small_land_low_mask (base r n : Nat) (hn : n ≤ 12)
    (hmod : base % 4096 = 0) :
    (base ||| r) &&& (2 ^ n - 1) = r &&& (2 ^ n - 1) := by
  apply Nat.eq_of_testBit_eq
  intro i
  rw [Nat.testBit_land, Nat.testBit_land, Nat.testBit_lor,
    Nat.testBit_two_pow_sub_one]
  by_cases h1 : i < n
  · have hb := low_bits_of_aligned base hmod i (by omega)
    simp [hb, h1]
  · simp [h1]

/-- Claim C8: the encoded-block word is a reversible mapping.  For every
block base address aligned to its block size `PAGE_SIZE * 2^order` (which
is at least `PAGE_SIZE`), every `order ≤ ORDER_MASK` and every pfmemalloc
flag, decoding `page_frag_encode_page base order pfmemalloc` with
`virt(w) = w & PAGE_MASK`, `order(w) = w & ORDER_MASK` and
`pfmemalloc(w) = w & PFMEMALLOC_BIT` yields exactly the original
`(base, order, pfmemalloc)` triple. -/
theorem encode_page_roundtrip (base order : Nat) (pfmemalloc : Bool)
    (hbase : base < 18446744073709551616)
    (halign : PAGE_SIZE * 2 ^ order ∣ base)
    (horder : order ≤ PAGE_FRAG_CACHE_ORDER_MASK) :
    page_frag_encoded_page_address (page_frag_encode_page base order pfmemalloc) = base ∧
    page_frag_encoded_page_order (page_frag_encode_page base order pfmemalloc) = order ∧
    page_frag_encoded_page_pfmemalloc (page_frag_encode_page base order pfmemalloc)
      = pfmemalloc := by
  have hmod : base % 4096 = 0 := by
    have h1 : (4096 : Nat) ∣ base := by
      refine dvd_trans ?_ halign
      have := dvd_mul_right PAGE_SIZE (2 ^ order)
      simpa [PAGE_SIZE] using this
    omega
  have hord255 : order ≤ 255 := horder
  have hord : order &&& PAGE_FRAG_CACHE_ORDER_MASK = order := by
    rw [show PAGE_FRAG_CACHE_ORDER_MASK = 2 ^ 8 - 1 from rfl, land_two_pow_sub_one]
    omega
  have hr : ∀ p : Nat, p ≤ 1 → order ||| p <<< 8 < 4096 := by
    intro p hp
    have h1 : order < 2 ^ 12 := by omega
    have h2 : p <<< 8 < 2 ^ 12 := by
      rw [Nat.shiftLeft_eq]
      omega
    calc order ||| p <<< 8 < 2 ^ 12 := Nat.bitwise_lt_two_pow h1 h2
      _ = 4096 := by norm_num
  cases pfmemalloc
  case false =>
    have he : page_frag_encode_page base order false =
        base ||| (order ||| 0 <<< 8) := by
      rw [page_frag_encode_page, hord, Nat.lor_assoc]
      rfl
    have hr0 := hr 0 (by omega)
    refine ⟨?_, ?_, ?_⟩
    · rw [page_frag_encoded_page_address, he]
      exact lor_small_land_page_mask base _ hbase hmod hr0
    · rw [page_frag_encoded_page_order, he,
        show PAGE_FRAG_CACHE_ORDER_MASK = 2 ^ 8 - 1 from rfl,
        lor_small_land_low_mask base _ 8 (by omega) hmod]
      have h0 : (0 : Nat) <<< 8 = 0 := by rfl
      rw [h0, Nat.or_zero _, land_two_pow_sub_one]
      omega
    · rw [page_frag_encoded_page_pfmemalloc, he]
      have h0 : (0 : Nat) <<< 8 = 0 := by rfl
      rw [h0, Nat.or_zero _]
      have hlt : base ||| order < 18446744073709551616 := by
        have hb2 : base < 2 ^ 64 := by norm_num [hbase]
        have ho2 : order < 2 ^ 64 := by
          calc order < 2 ^ 12 := by omega
            _ ≤ 2 ^ 64 := Nat.pow_le_pow_right (by norm_num) (by omega)
        calc base ||| order < 2 ^ 64 := Nat.bitwise_lt_two_pow hb2 ho2
          _ = 18446744073709551616 := by norm_num
      have hbit : (base ||| order).testBit 8 = false := by
        rw [Nat.testBit_lor, low_bits_of_aligned base hmod 8 (by omega),
          Nat.testBit_eq_false_of_lt (show order < 2 ^ 8 by omega)]
        rfl
      rw [show PAGE_FRAG_CACHE_PFMEMALLOC_BIT = 2 ^ 8 from rfl, Nat.and_two_pow, hbit]
      simp
  case true =>
    have he : page_frag_encode_page base order true =
        base ||| (order ||| 256) := by
      rw [page_frag_encode_page, hord, Nat.lor_assoc]
      rfl
    have hr1 : order ||| 256 < 4096 := by
      have := hr 1 (by omega)
      simpa using this
    refine ⟨?_, ?_, ?_⟩
    · rw [page_frag_encoded_page_address, he]
      exact lor_small_land_page_mask base _ hbase hmod hr1
    · rw [page_frag_encoded_page_order, he,
        show PAGE_FRAG_CACHE_ORDER_MASK = 2 ^ 8 - 1 from rfl,
        lor_small_land_low_mask base _ 8 (by omega) hmod]
      have h256 : (order ||| 256) &&& (2 ^ 8 - 1) = order &&& (2 ^ 8 - 1) := by
        apply Nat.eq_of_testBit_eq
        intro i
        rw [Nat.testBit_land, Nat.testBit_land, Nat.testBit_lor,
          Nat.testBit_two_pow_sub_one]
        by_cases h1 : i < 8
        · have h2 : (256 : Nat).testBit i = false := by
            rw [show (256 : Nat) = 2 ^ 8 from by norm_num, Nat.testBit_two_pow]
            simp
            omega
          simp [h2, h1]
        · simp [h1]
      rw [h256, land_two_pow_sub_one]
      omega
    · rw [page_frag_encoded_page_pfmemalloc, he]
      have hbit : (base ||| (order ||| 256)).testBit 8 = true := by
        rw [Nat.testBit_lor, Nat.testBit_lor, low_bits_of_aligned base hmod 8 (by omega),
          Nat.testBit_eq_false_of_lt (show order < 2 ^ 8 by omega),
          show (256 : Nat) = 2 ^ 8 from by norm_num, Nat.testBit_two_pow]
        rfl
      rw [show PAGE_FRAG_CACHE_PFMEMALLOC_BIT = 2 ^ 8 from rfl, Nat.and_two_pow, hbit]
      simp

/-- Witness for C8 at base 32768, order 3, pfmemalloc true. -/
theorem encode_page_roundtrip_witness :
    page_frag_encoded_page_address (page_frag_encode_page 32768 3 true) = 32768 ∧
    page_frag_encoded_page_order (page_frag_encode_page 32768 3 true) = 3 ∧
    page_frag_encoded_page_pfmemalloc (page_frag_encode_page 32768 3 true) = true := by
  exact encode_page_roundtrip 32768 3 true (by norm_num) (by norm_num [PAGE_SIZE])
    (by norm_num [PAGE_FRAG_CACHE_ORDER_MASK])

/-- Claim C9: drain on an empty cache is a no-op; drain on a cache holding a
block subtracts `pagecnt_bias` from the block's refcount, releases the block
to the allocator exactly when the count reaches zero, and zeroes the whole
cache; and drain is idempotent — applying it twice leaves the same state and
performs the same external effects (refcounts, releases, requests) as
applying it once. -/
theorem page_frag_cache_drain_spec (nc : page_frag_cache_t) (w : mem_world) :
    (nc.va = 0 → page_frag_cache_drain nc w = (nc, w)) ∧
    (nc.va ≠ 0 →
      (page_frag_cache_drain nc w).1 = ⟨0, 0, 0⟩ ∧
      (page_frag_cache_drain nc w).2.ref (nc.va &&& PAGE_MASK) =
        w.ref (nc.va &&& PAGE_MASK) - (nc.pagecnt_bias : Int) ∧
      ((page_frag_cache_drain nc w).2.freed =
        if w.ref (nc.va &&& PAGE_MASK) - (nc.pagecnt_bias : Int) = 0 then
          w.freed ++ [nc.va &&& PAGE_MASK] else w.freed) ∧
      (page_frag_cache_drain nc w).2.reqs = w.reqs) ∧
    page_frag_cache_drain (page_frag_cache_drain nc w).1 (page_frag_cache_drain nc w).2 =
      page_frag_cache_drain nc w := by
  by_cases h : nc.va = 0
  · refine ⟨fun _ => by simp [page_frag_cache_drain, h], fun hn => absurd h hn, ?_⟩
    simp [page_frag_cache_drain, h]
  · refine ⟨fun h0 => absurd h0 h, fun _ => ?_, ?_⟩
    · by_cases hz : w.ref (nc.va &&& PAGE_MASK) - (nc.pagecnt_bias : Int) = 0 <;>
        simp [page_frag_cache_drain, __page_frag_cache_drain, setref, h, hz]
    · by_cases hz : w.ref (nc.va &&& PAGE_MASK) - (nc.pagecnt_bias : Int) = 0 <;>
        simp [page_frag_cache_drain, __page_frag_cache_drain, setref, h, hz]

/-- Witness for C9: drain of an empty cache is the identity; drain of a
loaded cache empties it. -/
theorem page_frag_cache_drain_spec_witness :
    page_frag_cache_drain ⟨0, 0, 0⟩ ⟨fun _ => 3, [], []⟩ =
      (⟨0, 0, 0⟩, ⟨fun _ => 3, [], []⟩) ∧
    (page_frag_cache_drain ⟨4096, 100, 7⟩ ⟨fun _ => 7, [], []⟩).1 = ⟨0, 0, 0⟩ := by
  have h1 := (page_frag_cache_drain_spec ⟨0, 0, 0⟩ ⟨fun _ => 3, [], []⟩).1 rfl
  have h2 := ((page_frag_cache_drain_spec ⟨4096, 100, 7⟩ ⟨fun _ => 7, [], []⟩).2.1
    (by decide)).1
  exact ⟨h1, h2⟩

/-- The `new_page` path never releases a block to the allocator: the freed
list is untouched. -/
theorem refill_v2_new_page_freed (oracle : Nat → Nat → Option page_info)
    (nc : page_frag_cache_t) (gfp : Nat) (w : mem_world) :
    (__page_frag_cache_refill_v2_new_page oracle nc gfp w).2.2.freed = w.freed := by
  cases h1 : oracle (gfp_high_order gfp) PAGE_FRAG_CACHE_MAX_ORDER with
  | some p => simp [__page_frag_cache_refill_v2_new_page, alloc_pages_node, h1]
  | none =>
    cases h2 : oracle gfp 0 with
    | some p => simp [__page_frag_cache_refill_v2_new_page, alloc_pages_node, h1, h2]
    | none => simp [__page_frag_cache_refill_v2_new_page, alloc_pages_node, h1, h2]

/-- Claim C1: the reuse-or-drop decision taken when the current block is
exhausted (`__page_frag_cache_refill`, second revision, reached with the
cache holding a block).  The bias is collapsed into the block's refcount by
one atomic subtract.  If the subtract reached zero and the block is not
pfmemalloc, the block is recycled in place: its refcount is set back to
`PAGE_FRAG_CACHE_MAX_SIZE + 1`, `pagecnt_bias` is reset to
`PAGE_FRAG_CACHE_MAX_SIZE + 1`, the remaining size is reset to the whole
block size (offset 0) and the same block is retained.  If it reached zero
but the block is pfmemalloc, the block is released to the allocator and a
fresh refill is attempted.  If it did not reach zero, the block is
forgotten — not released by the cache — and a fresh refill is attempted. -/
theorem refill_v2_reuse_or_drop (oracle : Nat → Nat → Option page_info)
    (nc : page_frag_cache_t) (gfp : Nat) (w : mem_world) (hva : nc.va ≠ 0) :
    (w.ref (nc.va &&& PAGE_MASK) = (nc.pagecnt_bias : Int) →
      nc.va &&& PAGE_FRAG_CACHE_PFMEMALLOC_BIT = 0 →
      __page_frag_cache_refill_v2 oracle nc gfp w =
        (some (nc.va &&& PAGE_MASK),
         { nc with pagecnt_bias := PAGE_FRAG_CACHE_MAX_SIZE + 1,
                   size := page_frag_cache_page_size nc.va },
         { w with ref := setref (setref w.ref (nc.va &&& PAGE_MASK) 0)
                     (nc.va &&& PAGE_MASK) ((PAGE_FRAG_CACHE_MAX_SIZE : Int) + 1) })) ∧
    (w.ref (nc.va &&& PAGE_MASK) = (nc.pagecnt_bias : Int) →
      nc.va &&& PAGE_FRAG_CACHE_PFMEMALLOC_BIT ≠ 0 →
      __page_frag_cache_refill_v2 oracle nc gfp w =
        __page_frag_cache_refill_v2_new_page oracle nc gfp
          { w with ref := setref w.ref (nc.va &&& PAGE_MASK) 0,
                   freed := w.freed ++ [nc.va &&& PAGE_MASK] } ∧
      (__page_frag_cache_refill_v2 oracle nc gfp w).2.2.freed =
        w.freed ++ [nc.va &&& PAGE_MASK]) ∧
    (w.ref (nc.va &&& PAGE_MASK) ≠ (nc.pagecnt_bias : Int) →
      __page_frag_cache_refill_v2 oracle nc gfp w =
        __page_frag_cache_refill_v2_new_page oracle nc gfp
          { w with ref := setref w.ref (nc.va &&& PAGE_MASK)
                     (w.ref (nc.va &&& PAGE_MASK) - (nc.pagecnt_bias : Int)) } ∧
      (__page_frag_cache_refill_v2 oracle nc gfp w).2.2.freed = w.freed) := by
  refine ⟨?_, ?_, ?_⟩
  · intro heq hpf
    simp only [__page_frag_cache_refill_v2]
    rw [if_pos hva, if_neg (by rw [heq]; simp),
      if_neg (show ¬ (nc.va &&& PAGE_FRAG_CACHE_PFMEMALLOC_BIT ≠ 0) from fun hx => hx hpf)]
  · intro heq hpf
    have hmain : __page_frag_cache_refill_v2 oracle nc gfp w =
        __page_frag_cache_refill_v2_new_page oracle nc gfp
          { w with ref := setref w.ref (nc.va &&& PAGE_MASK) 0,
                   freed := w.freed ++ [nc.va &&& PAGE_MASK] } := by
      simp only [__page_frag_cache_refill_v2]
      rw [if_pos hva, if_neg (by rw [heq]; simp), if_pos hpf]
    refine ⟨hmain, ?_⟩
    rw [hmain, refill_v2_new_page_freed]
  · intro hne
    have hmain : __page_frag_cache_refill_v2 oracle nc gfp w =
        __page_frag_cache_refill_v2_new_page oracle nc gfp
          { w with ref := setref w.ref (nc.va &&& PAGE_MASK)
                     (w.ref (nc.va &&& PAGE_MASK) - (nc.pagecnt_bias : Int)) } := by
      simp only [__page_frag_cache_refill_v2]
      rw [if_pos hva, if_pos (by simpa using fun hx => hne (by omega))]
    refine ⟨hmain, ?_⟩
    rw [hmain, refill_v2_new_page_freed]

/-- Witness for C1: a fresh non-pfmemalloc order-3 block with no external
references is recycled in place. -/
theorem refill_v2_reuse_or_drop_witness :
    (__page_frag_cache_refill_v2 (fun _ _ => none) ⟨32771, 0, 32769⟩ 0
      ⟨fun _ => 32769, [], []⟩).2.1 = ⟨32771, 32768, 32769⟩ := by
  have h := (refill_v2_reuse_or_drop (fun _ _ => none) ⟨32771, 0, 32769⟩ 0
    ⟨fun _ => 32769, [], []⟩ (by decide)).1 (by decide) (by decide)
  rw [h]
  decide

/-- A word with bit `k` clear masked by `2^k` gives 0. -/
theorem land_single_bit_zero (x k : Nat) (h : x.testBit k = false) :
    x &&& 2 ^ k = 0 := by
  rw [Nat.and_two_pow, h]
  simp

/-- A word with bit `k` set masked by `2^k` gives `2^k`. -/
theorem land_single_bit_self (x k : Nat) (h : x.testBit k = true) :
    x &&& 2 ^ k = 2 ^ k := by
  rw [Nat.and_two_pow, h]
  simp

/-- Claim C2 counterexample: when both allocation attempts fail, refill sets
`va = 0` and `size = 0` but does not write `pagecnt_bias`, which keeps its
previous value (here 7) instead of the 0 the claim states. -/
theorem refill_v1_failure_keeps_bias :
    (__page_frag_cache_refill_v1 (fun _ _ => none) ⟨0, 0, 7⟩ 0
      ⟨fun _ => 0, [], []⟩).2.1 = ⟨0, 0, 7⟩ ∧ (7 : Nat) ≠ 0 := by
  exact ⟨rfl, by decide⟩

/-- Claim C2 (amended): refill first requests a block of
`PAGE_FRAG_CACHE_MAX_ORDER` with the caller's gfp flags modified to drop
direct reclaim and add compound, no-warn, no-retry and no-memalloc; on
failure of that request it requests an order-0 block with the caller's
original unmodified flags; on total failure it leaves `va = 0` and
`size = 0` with `pagecnt_bias` unchanged (not zeroed) and returns no block;
on any success it adds `PAGE_FRAG_CACHE_MAX_SIZE` to the fresh block's
refcount (which arrives at 1, hence `PAGE_FRAG_CACHE_MAX_SIZE + 1`), sets
`pagecnt_bias = PAGE_FRAG_CACHE_MAX_SIZE + 1` and leaves the whole block
size remaining, i.e. the fragment offset at the start of the block. -/
theorem refill_v1_requests_and_state (oracle : Nat → Nat → Option page_info)
    (nc : page_frag_cache_t) (gfp : Nat) (w : mem_world) :
    (gfp_high_order gfp &&& __GFP_DIRECT_RECLAIM = 0 ∧
     gfp_high_order gfp &&& __GFP_COMP = __GFP_COMP ∧
     gfp_high_order gfp &&& __GFP_NOWARN = __GFP_NOWARN ∧
     gfp_high_order gfp &&& __GFP_NORETRY = __GFP_NORETRY ∧
     gfp_high_order gfp &&& __GFP_NOMEMALLOC = __GFP_NOMEMALLOC) ∧
    (∀ p, oracle (gfp_high_order gfp) PAGE_FRAG_CACHE_MAX_ORDER = some p →
      (__page_frag_cache_refill_v1 oracle nc gfp w).1 = some p.base ∧
      (__page_frag_cache_refill_v1 oracle nc gfp w).2.1 =
        ⟨p.base ||| PAGE_FRAG_CACHE_MAX_ORDER |||
           ((if p.pfmemalloc then 1 else 0) <<< PAGE_FRAG_CACHE_PFMEMALLOC_SHIFT),
         PAGE_FRAG_CACHE_MAX_SIZE, PAGE_FRAG_CACHE_MAX_SIZE + 1⟩ ∧
      (__page_frag_cache_refill_v1 oracle nc gfp w).2.2.reqs =
        w.reqs ++ [(gfp_high_order gfp, PAGE_FRAG_CACHE_MAX_ORDER)] ∧
      (__page_frag_cache_refill_v1 oracle nc gfp w).2.2.ref p.base =
        (1 : Int) + PAGE_FRAG_CACHE_MAX_SIZE) ∧
    (oracle (gfp_high_order gfp) PAGE_FRAG_CACHE_MAX_ORDER = none →
      ∀ p, oracle gfp 0 = some p →
      (__page_frag_cache_refill_v1 oracle nc gfp w).1 = some p.base ∧
      (__page_frag_cache_refill_v1 oracle nc gfp w).2.1 =
        ⟨p.base ||| ((if p.pfmemalloc then 1 else 0) <<< PAGE_FRAG_CACHE_PFMEMALLOC_SHIFT),
         PAGE_SIZE, PAGE_FRAG_CACHE_MAX_SIZE + 1⟩ ∧
      (__page_frag_cache_refill_v1 oracle nc gfp w).2.2.reqs =
        w.reqs ++ [(gfp_high_order gfp, PAGE_FRAG_CACHE_MAX_ORDER), (gfp, 0)] ∧
      (__page_frag_cache_refill_v1 oracle nc gfp w).2.2.ref p.base =
        (1 : Int) + PAGE_FRAG_CACHE_MAX_SIZE) ∧
    (oracle (gfp_high_order gfp) PAGE_FRAG_CACHE_MAX_ORDER = none →
      oracle gfp 0 = none →
      __page_frag_cache_refill_v1 oracle nc gfp w =
        (none, ⟨0, 0, nc.pagecnt_bias⟩,
         { w with reqs := w.reqs ++
             [(gfp_high_order gfp, PAGE_FRAG_CACHE_MAX_ORDER), (gfp, 0)] })) := by
  have hnot : not32 __GFP_DIRECT_RECLAIM = 4294967231 := by decide
  have ht6 : (gfp_high_order gfp).testBit 6 = false := by
    simp only [gfp_high_order, hnot, Nat.testBit_lor, Nat.testBit_land]
    simp [show Nat.testBit 4294967231 6 = false from by decide,
      show Nat.testBit __GFP_COMP 6 = false from by decide,
      show Nat.testBit __GFP_NOWARN 6 = false from by decide,
      show Nat.testBit __GFP_NORETRY 6 = false from by decide,
      show Nat.testBit __GFP_NOMEMALLOC 6 = false from by decide]
  have ht1 : (gfp_high_order gfp).testBit 1 = true := by
    simp only [gfp_high_order, hnot, Nat.testBit_lor, Nat.testBit_land]
    simp [show Nat.testBit __GFP_COMP 1 = true from by decide]
  have ht2 : (gfp_high_order gfp).testBit 2 = true := by
    simp only [gfp_high_order, hnot, Nat.testBit_lor, Nat.testBit_land]
    simp [show Nat.testBit __GFP_NOWARN 2 = true from by decide]
  have ht3 : (gfp_high_order gfp).testBit 3 = true := by
    simp only [gfp_high_order, hnot, Nat.testBit_lor, Nat.testBit_land]
    simp [show Nat.testBit __GFP_NORETRY 3 = true from by decide]
  have ht4 : (gfp_high_order gfp).testBit 4 = true := by
    simp only [gfp_high_order, hnot, Nat.testBit_lor, Nat.testBit_land]
    simp [show Nat.testBit __GFP_NOMEMALLOC 4 = true from by decide]
  refine ⟨⟨?_, ?_, ?_, ?_, ?_⟩, ?_, ?_, ?_⟩
  · rw [show __GFP_DIRECT_RECLAIM = 2 ^ 6 from by decide]
    exact land_single_bit_zero _ 6 ht6
  · rw [show __GFP_COMP = 2 ^ 1 from by decide]
    exact land_single_bit_self _ 1 ht1
  · rw [show __GFP_NOWARN = 2 ^ 2 from by decide]
    exact land_single_bit_self _ 2 ht2
  · rw [show __GFP_NORETRY = 2 ^ 3 from by decide]
    exact land_single_bit_self _ 3 ht3
  · rw [show __GFP_NOMEMALLOC = 2 ^ 4 from by decide]
    exact land_single_bit_self _ 4 ht4
  · intro p hp
    refine ⟨?_, ?_, ?_, ?_⟩ <;>
      simp [__page_frag_cache_refill_v1, alloc_pages_node, hp, setref]
  · intro h3 p hp
    refine ⟨?_, ?_, ?_, ?_⟩ <;>
      simp [__page_frag_cache_refill_v1, alloc_pages_node, h3, hp, setref]
  · intro h3 h0
    simp [__page_frag_cache_refill_v1, alloc_pages_node, h3, h0]

/-- Witness for the amended C2: with the order-3 attempt succeeding, refill
installs a fresh 32 KiB block with bias `PAGE_FRAG_CACHE_MAX_SIZE + 1`. -/
theorem refill_v1_requests_and_state_witness :
    (__page_frag_cache_refill_v1
      (fun _ o => if o = PAGE_FRAG_CACHE_MAX_ORDER then some ⟨32768, false⟩ else none)
      ⟨0, 0, 0⟩ 0 ⟨fun _ => 0, [], []⟩).2.1.pagecnt_bias = 32769 := by
  have h := ((refill_v1_requests_and_state
    (fun _ o => if o = PAGE_FRAG_CACHE_MAX_ORDER then some ⟨32768, false⟩ else none)
    ⟨0, 0, 0⟩ 0 ⟨fun _ => 0, [], []⟩).2.1 ⟨32768, false⟩ (by simp)).2.1
  rw [h]
  rfl

/-- Claim C3 counterexample: with a fresh order-3 block held (32768 bytes
remaining), an allocation of `PAGE_SIZE + 1 = 4097` bytes succeeds on the
fast path, so a `PAGE_SIZE + 1` request can succeed — the rejection happens
only on the slow path, and it does depend on the order of the currently
held block. -/
theorem alloc_v1_page_size_plus_one_can_succeed :
    (__page_frag_alloc_va_align_v1 (fun _ _ => none) 1 ⟨32771, 32768, 32769⟩ 4097 0
      4294967295 ⟨fun _ => 32769, [], []⟩).1 = some 32768 := by
  decide

/-- Claim C3 (amended): an allocation of exactly `PAGE_SIZE` bytes on a
fresh order-0 block succeeds, and an allocation of `PAGE_SIZE + 1` bytes
never succeeds while an order-0 block is held (with whatever alignment and
fuel) — it is rejected on the slow path with the whole state unchanged; but
a `PAGE_SIZE + 1` request can succeed when a held higher-order block has
enough remaining space (see the counterexample). -/
theorem alloc_v1_page_size_boundary (oracle : Nat → Nat → Option page_info)
    (fuel : Nat) (nc : page_frag_cache_t) (gfp align_mask : Nat) (w : mem_world)
    (hva : nc.va ≠ 0) (horder : nc.va &&& PAGE_FRAG_CACHE_ORDER_MASK = 0) :
    (nc.size = PAGE_SIZE →
      (__page_frag_alloc_va_align_v1 oracle (fuel + 1) nc PAGE_SIZE gfp 4294967295 w).1 =
        some (nc.va &&& PAGE_MASK)) ∧
    (nc.size ≤ PAGE_SIZE →
      __page_frag_alloc_va_align_v1 oracle fuel nc (PAGE_SIZE + 1) gfp align_mask w =
        (none, nc, w)) := by
  constructor
  · intro hsz
    have hmask : nc.size &&& 4294967295 = PAGE_SIZE := by
      rw [hsz, show (4294967295 : Nat) = 2 ^ 32 - 1 from by norm_num,
        land_two_pow_sub_one]
      decide
    simp only [__page_frag_alloc_va_align_v1, hmask, horder]
    rw [if_neg (by simp [PAGE_SIZE])]
    simp [PAGE_SIZE, u32]
  · intro hsz
    cases fuel with
    | zero => rfl
    | succ n =>
      have hle : nc.size &&& align_mask ≤ PAGE_SIZE :=
        le_trans Nat.and_le_left hsz
      simp only [__page_frag_alloc_va_align_v1]
      rw [if_pos (by omega), if_neg hva, if_pos (by omega)]

/-- Witness for the amended C3 on a fresh order-0 block: `PAGE_SIZE` bytes
succeed, `PAGE_SIZE + 1` bytes fail leaving the state untouched. -/
theorem alloc_v1_page_size_boundary_witness :
    (__page_frag_alloc_va_align_v1 (fun _ _ => none) 1 ⟨4096, 4096, 32769⟩ 4096 0
      4294967295 ⟨fun _ => 32769, [], []⟩).1 = some 4096 ∧
    __page_frag_alloc_va_align_v1 (fun _ _ => none) 5 ⟨4096, 4096, 32769⟩ 4097 0
      4294967295 ⟨fun _ => 32769, [], []⟩ =
      (none, ⟨4096, 4096, 32769⟩, ⟨fun _ => 32769, [], []⟩) := by
  have h := alloc_v1_page_size_boundary (fun _ _ => none) 0 ⟨4096, 4096, 32769⟩ 0
    4294967295 ⟨fun _ => 32769, [], []⟩ (by decide) (by decide)
  have h2 := alloc_v1_page_size_boundary (fun _ _ => none) 5 ⟨4096, 4096, 32769⟩ 0
    4294967295 ⟨fun _ => 32769, [], []⟩ (by decide) (by decide)
  exact ⟨h.1 rfl, h2.2 (by decide)⟩

/-- Claim C4 counterexample: on an empty cache a too-large request first
refills; here the order-3 attempt fails and the order-0 attempt succeeds,
the request then still fails as too large (returns no address), but the
cache now holds the fresh block — the cache state is not what it was
before the call. -/
theorem alloc_v1_too_large_mutates_empty_cache :
    (__page_frag_alloc_va_align_v1
      (fun _ o => if o = 0 then some ⟨4096, false⟩ else none) 2 ⟨0, 0, 0⟩ 4097 0
      4294967295 ⟨fun _ => 0, [], []⟩).1 = none ∧
    (__page_frag_alloc_va_align_v1
      (fun _ o => if o = 0 then some ⟨4096, false⟩ else none) 2 ⟨0, 0, 0⟩ 4097 0
      4294967295 ⟨fun _ => 0, [], []⟩).2.1.va = 4096 := by
  exact ⟨by decide, by decide⟩

/-- Claim C4 (amended): when the cache holds a block and the requested
fragment size exceeds `PAGE_SIZE` while also exceeding the aligned
remaining space, the allocation fails returning no address and leaves the
cache state and the outside world exactly as they were, whatever the fuel;
when the cache is empty a refill is attempted first and its effects persist
even if the request then fails as too large (see the counterexample). -/
theorem alloc_v1_too_large_unchanged (oracle : Nat → Nat → Option page_info)
    (fuel : Nat) (nc : page_frag_cache_t) (fragsz gfp align_mask : Nat) (w : mem_world)
    (hva : nc.va ≠ 0) (hbig : fragsz > PAGE_SIZE)
    (hnofit : fragsz > nc.size &&& align_mask) :
    __page_frag_alloc_va_align_v1 oracle fuel nc fragsz gfp align_mask w =
      (none, nc, w) := by
  cases fuel with
  | zero => rfl
  | succ n =>
    simp only [__page_frag_alloc_va_align_v1]
    rw [if_pos hnofit, if_neg hva, if_pos hbig]

/-- Witness for the amended C4: a 5000-byte request on a partly used
order-0 block fails and changes nothing. -/
theorem alloc_v1_too_large_unchanged_witness :
    __page_frag_alloc_va_align_v1 (fun _ _ => none) 3 ⟨8192, 100, 5⟩ 5000 0
      4294967295 ⟨fun _ => 5, [], []⟩ =
      (none, ⟨8192, 100, 5⟩, ⟨fun _ => 5, [], []⟩) := by
  exact alloc_v1_too_large_unchanged (fun _ _ => none) 3 ⟨8192, 100, 5⟩ 5000 0
    4294967295 ⟨fun _ => 5, [], []⟩ (by decide) (by decide) (by decide)


/-- Claim C10: zero-size requests on a cache holding a block always succeed
and still consume one logical reference.  With no alignment constraint the
probe for 0 bytes returns a fragment at the current offset even when the
block is fully exhausted (`offset` equal to the block size, allowed by the
`≤` hypothesis); committing it with `used_sz = 0` decrements `pagecnt_bias`
by one while leaving the offset where it was; and an allocation of 0 bytes
through the `va`/`size`-representation allocator likewise returns an
address and decrements `pagecnt_bias` without consuming any remaining
space. -/
theorem zero_size_request (nc : page_frag_cache)
    (hva : nc.encoded_page ≠ 0)
    (hord : nc.encoded_page &&& PAGE_FRAG_CACHE_ORDER_MASK ≤ 3)
    (hoff : nc.offset ≤ page_frag_cache_page_size nc.encoded_page)
    (hbias1 : 1 ≤ nc.pagecnt_bias) (hbias2 : nc.pagecnt_bias < 4294967296) :
    __page_frag_alloc_refill_probe_align nc 0 4294967295 =
      some (⟨page_frag_encoded_page_ptr nc.encoded_page, nc.offset,
             page_frag_cache_page_size nc.encoded_page - nc.offset⟩,
            page_frag_encoded_page_address nc.encoded_page + nc.offset) ∧
    (__page_frag_cache_commit nc
      ⟨page_frag_encoded_page_ptr nc.encoded_page, nc.offset,
       page_frag_cache_page_size nc.encoded_page - nc.offset⟩ true 0).1.pagecnt_bias =
      nc.pagecnt_bias - 1 ∧
    (__page_frag_cache_commit nc
      ⟨page_frag_encoded_page_ptr nc.encoded_page, nc.offset,
       page_frag_cache_page_size nc.encoded_page - nc.offset⟩ true 0).1.offset =
      nc.offset ∧
    (∀ (oracle : Nat → Nat → Option page_info) (n : Nat) (nc1 : page_frag_cache_t)
        (gfp : Nat) (w : mem_world), nc1.va ≠ 0 →
      1 ≤ nc1.pagecnt_bias → nc1.pagecnt_bias < 4294967296 → nc1.size < 4294967296 →
      (__page_frag_alloc_va_align_v1 oracle (n + 1) nc1 0 gfp 4294967295 w).1 ≠ none ∧
      (__page_frag_alloc_va_align_v1 oracle (n + 1) nc1 0 gfp 4294967295 w).2.1.pagecnt_bias
        = nc1.pagecnt_bias - 1 ∧
      (__page_frag_alloc_va_align_v1 oracle (n + 1) nc1 0 gfp 4294967295 w).2.1.size =
        nc1.size) := by
  have hple : page_frag_cache_page_size nc.encoded_page ≤ 32768 := by
    rw [page_frag_cache_page_size, page_frag_encoded_page_order, Nat.shiftLeft_eq]
    have h8 : 2 ^ (nc.encoded_page &&& PAGE_FRAG_CACHE_ORDER_MASK) ≤ 2 ^ 3 :=
      Nat.pow_le_pow_right (by norm_num) hord
    calc u32 (PAGE_SIZE * 2 ^ (nc.encoded_page &&& PAGE_FRAG_CACHE_ORDER_MASK))
        ≤ PAGE_SIZE * 2 ^ (nc.encoded_page &&& PAGE_FRAG_CACHE_ORDER_MASK) :=
          Nat.mod_le _ _
      _ ≤ PAGE_SIZE * 2 ^ 3 := Nat.mul_le_mul_left _ h8
      _ = 32768 := by norm_num [PAGE_SIZE]
  have hal : __ALIGN_KERNEL_MASK nc.offset (not32 4294967295) = nc.offset := by
    rw [__ALIGN_KERNEL_MASK, show not32 4294967295 = 0 from by decide,
      show not32 0 = 4294967295 from by decide,
      show (4294967295 : Nat) = 2 ^ 32 - 1 from by norm_num, land_two_pow_sub_one]
    unfold add32
    omega
  refine ⟨?_, ?_, ?_, ?_⟩
  · have hcond : ¬ (nc.encoded_page = 0 ∨
        add32 (__ALIGN_KERNEL_MASK nc.offset (not32 4294967295)) 0 >
          page_frag_cache_page_size nc.encoded_page) := by
      rw [hal]
      intro hor
      rcases hor with h | h
      · exact hva h
      · revert h
        unfold add32
        omega
    simp only [__page_frag_alloc_refill_probe_align]
    rw [if_neg hcond, hal]
    have hsub : sub32 (page_frag_cache_page_size nc.encoded_page) nc.offset =
        page_frag_cache_page_size nc.encoded_page - nc.offset := by
      unfold sub32
      omega
    rw [hsub]
  · simp [__page_frag_cache_commit, sub32, add32]
    omega
  · simp [__page_frag_cache_commit, sub32, add32]
    omega
  · intro oracle n nc1 gfp w hva1 hb1 hb2 hs
    simp only [__page_frag_alloc_va_align_v1]
    rw [if_neg (by omega)]
    refine ⟨by simp, ?_, ?_⟩
    · simp only [sub32]
      omega
    · simp only [sub32,
        show (4294967295 : Nat) = 2 ^ 32 - 1 from by norm_num, land_two_pow_sub_one]
      omega


/-- Witness for C10 on a fully exhausted order-0 block. -/
theorem zero_size_request_witness :
    __page_frag_alloc_refill_probe_align ⟨4096, 4096, 5⟩ 0 4294967295 =
      some (⟨4096, 4096, 0⟩, 8192) ∧
    (__page_frag_cache_commit ⟨4096, 4096, 5⟩ ⟨4096, 4096, 0⟩ true 0).1.pagecnt_bias = 4 := by
  have h := zero_size_request ⟨4096, 4096, 5⟩ (by decide) (by decide) (by decide)
    (by decide) (by decide)
  refine ⟨?_, ?_⟩
  · rw [h.1]
    decide
  · exact h.2.1
